import Mathlib

/-
Verification of the breeze Pushover client library.

The Go sources embedded here are `message.go` (message value object, field
limits, error discriminants, builder setters, parameter assembly) and
`pushcontext.go` (delivery context, response interpretation, context
construction). The transport layer (HTTP POST/GET and JSON decoding) is
external: it is modelled as an explicit function from an endpoint and a
parameter list to a decoded `Response`, and the sound-catalogue GET as an
explicit fetch outcome. `Push` is instrumented with a trace of the transport
calls it performs, so that pre-flight properties ("no network access before
validation") are statable.

`Push` calls `message.validateMessage(pushContext)`, whose defining file is
not among the repository sources; it is modelled from the specification's
section 4.2 (see the doc comment on `Message.validateMessage`).
-/

set_option autoImplicit false

namespace Breeze

/-! ## Constants from message.go -/

def Lowest : Int := -2

def Low : Int := -1

def Normal : Int := 0

def High : Int := 1

def Emergency : Int := 2

def minRetryTime : Int := 30

def maxExpireTime : Int := 86400

/-- MaxTitleLen defines the maximum size of a message title. -/
def MaxTitleLen : Nat := 250

/-- MaxMessageLen defines the maximum length of a message. -/
def MaxMessageLen : Nat := 1024

/-- MaxSuppURLTitleLen defines the maximum length of a supplementary URL title. -/
def MaxSuppURLTitleLen : Nat := 100

/-- MaxSuppURLLen defines the maximum length of the supplementary URL. -/
def MaxSuppURLLen : Nat := 512

/-! ## Error discriminants from message.go (`-(1 + iota)`) -/

def ErrMessageBlank : Int := -1

def ErrMessageTooLong : Int := -2

def ErrTitleTooLong : Int := -3

def ErrSuppURLTitleTooLong : Int := -4

def ErrSuppURLTooLong : Int := -5

def ErrInvalidPriority : Int := -6

def ErrMissingParameter : Int := -7

def ErrRetryTimeTooShort : Int := -8

def ErrExpireTimeTooLong : Int := -9

def ErrNoDevice : Int := -10

/-- ValueError represents some error in the parameters passed in by the user
(struct `ValueError` of message.go, with discriminant `What` and text `Why`). -/
structure ValueError where
  What : Int
  Why : String
deriving DecidableEq, Repr

/-- Message mirrors the `Message` struct of message.go; Go zero values become
the Lean default field values. -/
structure Message where
  message : String
  title : String := ""
  url : String := ""
  urlTitle : String := ""
  priority : Int := 0
  retry : Int := 0
  expire : Int := 0
  timestamp : Int := 0
  sound : String := ""
  device : String := ""
deriving DecidableEq, Repr

/-- Response mirrors the `Response` struct of pushcontext.go; a Go
`map[string]string` is embedded as an association list. -/
structure Response where
  Status : Int := 0
  Request : String := ""
  Receipt : String := ""
  Devices : List String := []
  Errors : List String := []
  Sounds : List (String × String) := []
deriving DecidableEq, Repr

/-- The zero `Response`, i.e. Go's `Response{}`. -/
def zeroResponse : Response := {}

/-- PushContext mirrors the `PushContext` struct of pushcontext.go. -/
structure PushContext where
  appToken : String
  userKey : String
  SupportedSounds : List (String × String) := []
  SupportedDevices : List String := []
deriving DecidableEq, Repr

/-- Errors surfaced by the library: a local `*ValueError`, a remote
`*PushError` wrapping the decoded response, or a transport failure. -/
inductive Err where
  | valueError (v : ValueError)
  | pushError (resp : Response)
  | transportError
deriving DecidableEq, Repr

/-! ## Endpoints from pushcontext.go -/

def validateURL : String := "https://api.pushover.net/1/users/validate.json"

def pushURL : String := "https://api.pushover.net/1/messages.json"

def soundURL : String := "https://api.pushover.net/1/sounds.json"

/-! ## Read-only lookups from pushcontext.go -/

/-- IsValidDevice checks whether a requested device is in the context's
known-device list (pushcontext.go). -/
def PushContext.IsValidDevice (pushContext : PushContext) (device : String) : Bool :=
  pushContext.SupportedDevices.any (fun suppDev => suppDev == device)

/-- IsValidSound checks whether a requested sound is a key of the context's
known-sound catalogue (pushcontext.go). -/
def PushContext.IsValidSound (pushContext : PushContext) (sound : String) : Bool :=
  pushContext.SupportedSounds.any (fun entry => entry.1 == sound)

/-! ## Message builder from message.go -/

/-- NewMessage builds a message holding only body text (message.go). -/
def NewMessage (msg : String) : Message :=
  { message := msg }

def Message.AddTitle (message : Message) (title : String) : Message :=
  { message with title := title }

def Message.AddURL (message : Message) (url : String) : Message :=
  { message with url := url }

def Message.AddURLTitle (message : Message) (title : String) : Message :=
  { message with urlTitle := title }

def Message.AddPriority (message : Message) (priority : Int) : Message :=
  { message with priority := priority }

def Message.AddRetry (message : Message) (retry : Int) : Message :=
  { message with retry := retry }

def Message.AddExpire (message : Message) (expire : Int) : Message :=
  { message with expire := expire }

def Message.AddTimestamp (message : Message) (timestamp : Int) : Message :=
  { message with timestamp := timestamp }

def Message.AddSound (message : Message) (sound : String) : Message :=
  { message with sound := sound }

def Message.AddDevice (message : Message) (device : String) : Message :=
  { message with device := device }

/-! ## Validation -/

/-- Modelled from the spec: `PushContext.Push` (pushcontext.go line 87) calls
`message.validateMessage(pushContext)`, but the file defining
`validateMessage` is missing from the repository sources. This definition
follows the specification's section 4.2 verbatim: checks 1 to 11 as pure
functions of the message, evaluated in the listed order, the first failing
check determining the returned discriminant. The listed check 12
(sound-catalogue membership) is described by the spec as an optional
recommended extension that the source defines a lookup for but does not wire
into the validation sequence, so it is not part of this definition; note also
that message.go enumerates no sound-related discriminant it could fail with. -/
def Message.validateMessage (m : Message) (pushContext : PushContext) : Option ValueError :=
  if m.message = "" then
    some ⟨ErrMessageBlank, "message body is blank"⟩
  else if m.message.length > MaxMessageLen then
    some ⟨ErrMessageTooLong, "message body exceeds MaxMessageLen"⟩
  else if m.title.length > MaxTitleLen then
    some ⟨ErrTitleTooLong, "title exceeds MaxTitleLen"⟩
  else if m.url.length > MaxSuppURLLen then
    some ⟨ErrSuppURLTooLong, "supplementary url exceeds MaxSuppURLLen"⟩
  else if m.urlTitle.length > MaxSuppURLTitleLen then
    some ⟨ErrSuppURLTitleTooLong, "supplementary url title exceeds MaxSuppURLTitleLen"⟩
  else if m.urlTitle ≠ "" ∧ m.url = "" then
    some ⟨ErrMissingParameter, "url title given but url is empty"⟩
  else if ¬(m.priority = Lowest ∨ m.priority = Low ∨ m.priority = Normal ∨
      m.priority = High ∨ m.priority = Emergency) then
    some ⟨ErrInvalidPriority, "priority is not one of the defined levels"⟩
  else if m.priority = Emergency ∧ (m.retry = 0 ∨ m.expire = 0) then
    some ⟨ErrMissingParameter, "emergency priority requires retry and expire"⟩
  else if m.priority = Emergency ∧ m.retry < minRetryTime then
    some ⟨ErrRetryTimeTooShort, "retry time is below minRetryTime"⟩
  else if m.priority = Emergency ∧ m.expire > maxExpireTime then
    some ⟨ErrExpireTimeTooLong, "expire time is above maxExpireTime"⟩
  else if m.device ≠ "" ∧ pushContext.IsValidDevice m.device = false then
    some ⟨ErrNoDevice, "device is not among the supported devices"⟩
  else
    none

/-! ## Parameter assembly -/

/-- Message.addValues from message.go: a sequence of conditional
`values.Add` calls, each appending one key/value pair. -/
def Message.addValues (message : Message) (values : List (String × String)) :
    List (String × String) :=
  ((((((((values
    ++ (if message.message ≠ "" then [("message", message.message)] else []))
    ++ (if message.title ≠ "" then [("title", message.title)] else []))
    ++ (if message.url ≠ "" then [("url", message.url)] else []))
    ++ (if message.urlTitle ≠ "" then [("url_title", message.urlTitle)] else []))
    ++ [("priority", toString message.priority)])
    ++ (if message.priority = Emergency then
          [("retry", toString message.retry), ("expire", toString message.expire)]
        else []))
    ++ (if message.timestamp ≠ 0 then [("timestamp", toString message.timestamp)] else []))
    ++ (if message.sound ≠ "" then [("sound", message.sound)] else []))
    ++ (if message.device ≠ "" then [("device", message.device)] else [])

/-- PushContext.addValues from pushcontext.go: adds the credentials. -/
def PushContext.addValues (pushContext : PushContext) (values : List (String × String)) :
    List (String × String) :=
  values ++ [("token", pushContext.appToken), ("user", pushContext.userKey)]

/-- Whether an assembled parameter list carries a given key. -/
def hasKey (values : List (String × String)) (key : String) : Bool :=
  values.any (fun entry => entry.1 == key)

/-! ## Transport model and dispatch -/

/-- The external POST transport: endpoint and form parameters to the decoded
response body (pushcontext.go delegates to `http.PostForm` + JSON decode). -/
abbrev Transport := String → List (String × String) → Response

/-- Outcome of the external GET used for the sound catalogue: either the HTTP
request fails, or a decoded response is obtained. -/
inductive FetchResult where
  | fail
  | ok (resp : Response)
deriving DecidableEq, Repr

/-- A record of one transport call: the endpoint and the parameters posted. -/
abbrev Call := String × List (String × String)

/-- PushContext.push from pushcontext.go: posts the form, decodes the body,
and interprets the status field — any status other than 1 yields a zero
response paired with a `PushError` wrapping the decoded response; status 1
returns the decoded response. -/
def PushContext.push (pushContext : PushContext) (transport : Transport)
    (theURL : String) (values : List (String × String)) : Response × Option Err :=
  let responseData := transport theURL values
  if responseData.Status ≠ 1 then
    (zeroResponse, some (Err.pushError responseData))
  else
    (responseData, none)

/-- PushContext.Push from pushcontext.go, instrumented with the list of
transport calls performed: validate the message; on failure return the zero
response and the validation error with no transport call; on full pass
assemble credentials then message parameters and delegate one call to the
send-message endpoint. -/
def PushContext.Push (pushContext : PushContext) (transport : Transport)
    (message : Message) : (Response × Option Err) × List Call :=
  match message.validateMessage pushContext with
  | some e => ((zeroResponse, some (Err.valueError e)), [])
  | none =>
    let parameters := message.addValues (pushContext.addValues [])
    (pushContext.push transport pushURL parameters, [(pushURL, parameters)])

/-! ## Context construction from pushcontext.go -/

/-- PushContext.get from pushcontext.go: an HTTP GET whose failure is
returned with a zero response, and whose body is otherwise decoded. -/
def PushContext.get (pushContext : PushContext) (fetched : FetchResult) :
    Response × Option Err :=
  match fetched with
  | FetchResult.fail => (zeroResponse, some Err.transportError)
  | FetchResult.ok responseData => (responseData, none)

/-- PushContext.availableSounds from pushcontext.go: GET the sound catalogue;
on transport failure return an empty catalogue and the error. -/
def PushContext.availableSounds (pushContext : PushContext) (fetched : FetchResult) :
    List (String × String) × Option Err :=
  let result := pushContext.get fetched
  match result.2 with
  | some e => ([], some e)
  | none => (result.1.Sounds, none)

/-- PushContext.validatePushContext from pushcontext.go: validate the
credentials against the validate endpoint (recording supported devices), then
fetch the sound catalogue; the first failing step aborts with its error. -/
def PushContext.validatePushContext (pushContext : PushContext) (transport : Transport)
    (soundsFetched : FetchResult) : PushContext × Option Err :=
  let parameters := pushContext.addValues []
  let result := pushContext.push transport validateURL parameters
  match result.2 with
  | some e => (pushContext, some e)
  | none =>
    let withDevices := { pushContext with SupportedDevices := result.1.Devices }
    let sounds := withDevices.availableSounds soundsFetched
    match sounds.2 with
    | some e => (withDevices, some e)
    | none => ({ withDevices with SupportedSounds := sounds.1 }, none)

/-- NewPushContext from pushcontext.go: build the context from the
credentials and run discovery; any discovery error yields no context at all. -/
def NewPushContext (transport : Transport) (soundsFetched : FetchResult)
    (appToken : String) (userKey : String) : Option PushContext × Option Err :=
  let pushContext : PushContext := { appToken := appToken, userKey := userKey }
  let result := pushContext.validatePushContext transport soundsFetched
  match result.2 with
  | some e => (none, some e)
  | none => (some result.1, none)

/-! ## Helper lemmas: a complete case analysis of the validator -/

/-- The discriminant of an optional validation error; 0 (not a discriminant)
when there is no error. -/
def whatOf : Option ValueError → Int
  | none => 0
  | some v => v.What

/-! ## The validation order of section 4.2 as an explicit check list -/

/-- The first failing check of a list of check results, as the spec's
"first failing check wins". -/
def firstSome : List (Option ValueError) → Option ValueError
  | [] => none
  | some v :: _ => some v
  | none :: rest => firstSome rest

/-- Check 1 of section 4.2: body text non-empty. -/
def specCheck1 (m : Message) (_ : PushContext) : Option ValueError :=
  if m.message = "" then some ⟨ErrMessageBlank, "message body is blank"⟩ else none

/-- Check 2 of section 4.2: body text length at most 1024. -/
def specCheck2 (m : Message) (_ : PushContext) : Option ValueError :=
  if m.message.length > MaxMessageLen then
    some ⟨ErrMessageTooLong, "message body exceeds MaxMessageLen"⟩ else none

/-- Check 3 of section 4.2: title length at most 250. -/
def specCheck3 (m : Message) (_ : PushContext) : Option ValueError :=
  if m.title.length > MaxTitleLen then
    some ⟨ErrTitleTooLong, "title exceeds MaxTitleLen"⟩ else none

/-- Check 4 of section 4.2: auxiliary URL length at most 512. -/
def specCheck4 (m : Message) (_ : PushContext) : Option ValueError :=
  if m.url.length > MaxSuppURLLen then
    some ⟨ErrSuppURLTooLong, "supplementary url exceeds MaxSuppURLLen"⟩ else none

/-- Check 5 of section 4.2: auxiliary URL title length at most 100. -/
def specCheck5 (m : Message) (_ : PushContext) : Option ValueError :=
  if m.urlTitle.length > MaxSuppURLTitleLen then
    some ⟨ErrSuppURLTitleTooLong, "supplementary url title exceeds MaxSuppURLTitleLen"⟩
  else none

/-- Check 6 of section 4.2: URL title set while URL empty is missing a parameter. -/
def specCheck6 (m : Message) (_ : PushContext) : Option ValueError :=
  if m.urlTitle ≠ "" ∧ m.url = "" then
    some ⟨ErrMissingParameter, "url title given but url is empty"⟩ else none

/-- Check 7 of section 4.2: priority must be one of the five defined levels. -/
def specCheck7 (m : Message) (_ : PushContext) : Option ValueError :=
  if ¬(m.priority = Lowest ∨ m.priority = Low ∨ m.priority = Normal ∨
      m.priority = High ∨ m.priority = Emergency) then
    some ⟨ErrInvalidPriority, "priority is not one of the defined levels"⟩ else none

/-- Check 8 of section 4.2: Emergency priority requires retry and expire set. -/
def specCheck8 (m : Message) (_ : PushContext) : Option ValueError :=
  if m.priority = Emergency ∧ (m.retry = 0 ∨ m.expire = 0) then
    some ⟨ErrMissingParameter, "emergency priority requires retry and expire"⟩ else none

/-- Check 9 of section 4.2: Emergency retry interval at least 30 seconds. -/
def specCheck9 (m : Message) (_ : PushContext) : Option ValueError :=
  if m.priority = Emergency ∧ m.retry < minRetryTime then
    some ⟨ErrRetryTimeTooShort, "retry time is below minRetryTime"⟩ else none

/-- Check 10 of section 4.2: Emergency expire window at most 86400 seconds. -/
def specCheck10 (m : Message) (_ : PushContext) : Option ValueError :=
  if m.priority = Emergency ∧ m.expire > maxExpireTime then
    some ⟨ErrExpireTimeTooLong, "expire time is above maxExpireTime"⟩ else none

/-- Check 11 of section 4.2: a set device must be among the known devices. -/
def specCheck11 (m : Message) (pushContext : PushContext) : Option ValueError :=
  if m.device ≠ "" ∧ pushContext.IsValidDevice m.device = false then
    some ⟨ErrNoDevice, "device is not among the supported devices"⟩ else none

/-- The implemented checks of section 4.2, in their listed order. -/
def specChecks : List (Message → PushContext → Option ValueError) :=
  [specCheck1, specCheck2, specCheck3, specCheck4, specCheck5, specCheck6,
   specCheck7, specCheck8, specCheck9, specCheck10, specCheck11]

/-! ## Concrete fixtures used by witnesses and counterexamples -/

def wTransport : Transport := fun _ _ => { Status := 1, Request := "req", Receipt := "" }

def wCtx : PushContext := { appToken := "app", userKey := "key" }

def wBlank : Message := NewMessage ""

def wLong : Message := NewMessage (String.mk (List.replicate 1025 'a'))

def wExact : Message := NewMessage (String.mk (List.replicate 1024 'a'))

def wURLTitle : Message := (NewMessage "a").AddURLTitle "b"

def wEmA : Message := (((NewMessage "a").AddPriority Emergency).AddRetry 29).AddExpire 86400

def wEmB : Message := (((NewMessage "a").AddPriority Emergency).AddRetry 30).AddExpire 86401

def wPlain : Message := (((NewMessage "hello").AddTitle "Greetings").AddTimestamp 5).AddURL "u"

def cxBlankURLTitle : Message := (NewMessage "").AddURLTitle "b"

def cxBlankEmergency : Message :=
  (((NewMessage "").AddPriority Emergency).AddRetry 29).AddExpire 100

def cxBlankLongTitle : Message :=
  (NewMessage "").AddTitle (String.mk (List.replicate 251 'a'))

def cxSoundCtx : PushContext :=
  { appToken := "app", userKey := "key", SupportedSounds := [("bike", "Bike")] }

def cxSoundMsg : Message := (NewMessage "hello").AddSound "quack"

/-! ## Helper theorems -/

/-- Complete characterization of `validateMessage`: exactly one of the twelve
branches of the check sequence applies, identified by its guards. -/
theorem validateMessage_char (m : Message) (pushContext : PushContext) :
    (m.message = "" ∧
      m.validateMessage pushContext = some ⟨ErrMessageBlank, "message body is blank"⟩) ∨
    (¬m.message = "" ∧ m.message.length > MaxMessageLen ∧
      m.validateMessage pushContext =
        some ⟨ErrMessageTooLong, "message body exceeds MaxMessageLen"⟩) ∨
    (¬m.message = "" ∧ ¬m.message.length > MaxMessageLen ∧ m.title.length > MaxTitleLen ∧
      m.validateMessage pushContext = some ⟨ErrTitleTooLong, "title exceeds MaxTitleLen"⟩) ∨
    (¬m.message = "" ∧ ¬m.message.length > MaxMessageLen ∧ ¬m.title.length > MaxTitleLen ∧
      m.url.length > MaxSuppURLLen ∧
      m.validateMessage pushContext =
        some ⟨ErrSuppURLTooLong, "supplementary url exceeds MaxSuppURLLen"⟩) ∨
    (¬m.message = "" ∧ ¬m.message.length > MaxMessageLen ∧ ¬m.title.length > MaxTitleLen ∧
      ¬m.url.length > MaxSuppURLLen ∧ m.urlTitle.length > MaxSuppURLTitleLen ∧
      m.validateMessage pushContext =
        some ⟨ErrSuppURLTitleTooLong, "supplementary url title exceeds MaxSuppURLTitleLen"⟩) ∨
    (¬m.message = "" ∧ ¬m.message.length > MaxMessageLen ∧ ¬m.title.length > MaxTitleLen ∧
      ¬m.url.length > MaxSuppURLLen ∧ ¬m.urlTitle.length > MaxSuppURLTitleLen ∧
      (m.urlTitle ≠ "" ∧ m.url = "") ∧
      m.validateMessage pushContext =
        some ⟨ErrMissingParameter, "url title given but url is empty"⟩) ∨
    (¬m.message = "" ∧ ¬m.message.length > MaxMessageLen ∧ ¬m.title.length > MaxTitleLen ∧
      ¬m.url.length > MaxSuppURLLen ∧ ¬m.urlTitle.length > MaxSuppURLTitleLen ∧
      ¬(m.urlTitle ≠ "" ∧ m.url = "") ∧
      ¬(m.priority = Lowest ∨ m.priority = Low ∨ m.priority = Normal ∨
        m.priority = High ∨ m.priority = Emergency) ∧
      m.validateMessage pushContext =
        some ⟨ErrInvalidPriority, "priority is not one of the defined levels"⟩) ∨
    (¬m.message = "" ∧ ¬m.message.length > MaxMessageLen ∧ ¬m.title.length > MaxTitleLen ∧
      ¬m.url.length > MaxSuppURLLen ∧ ¬m.urlTitle.length > MaxSuppURLTitleLen ∧
      ¬(m.urlTitle ≠ "" ∧ m.url = "") ∧
      (m.priority = Lowest ∨ m.priority = Low ∨ m.priority = Normal ∨
        m.priority = High ∨ m.priority = Emergency) ∧
      (m.priority = Emergency ∧ (m.retry = 0 ∨ m.expire = 0)) ∧
      m.validateMessage pushContext =
        some ⟨ErrMissingParameter, "emergency priority requires retry and expire"⟩) ∨
    (¬m.message = "" ∧ ¬m.message.length > MaxMessageLen ∧ ¬m.title.length > MaxTitleLen ∧
      ¬m.url.length > MaxSuppURLLen ∧ ¬m.urlTitle.length > MaxSuppURLTitleLen ∧
      ¬(m.urlTitle ≠ "" ∧ m.url = "") ∧
      (m.priority = Lowest ∨ m.priority = Low ∨ m.priority = Normal ∨
        m.priority = High ∨ m.priority = Emergency) ∧
      ¬(m.priority = Emergency ∧ (m.retry = 0 ∨ m.expire = 0)) ∧
      (m.priority = Emergency ∧ m.retry < minRetryTime) ∧
      m.validateMessage pushContext =
        some ⟨ErrRetryTimeTooShort, "retry time is below minRetryTime"⟩) ∨
    (¬m.message = "" ∧ ¬m.message.length > MaxMessageLen ∧ ¬m.title.length > MaxTitleLen ∧
      ¬m.url.length > MaxSuppURLLen ∧ ¬m.urlTitle.length > MaxSuppURLTitleLen ∧
      ¬(m.urlTitle ≠ "" ∧ m.url = "") ∧
      (m.priority = Lowest ∨ m.priority = Low ∨ m.priority = Normal ∨
        m.priority = High ∨ m.priority = Emergency) ∧
      ¬(m.priority = Emergency ∧ (m.retry = 0 ∨ m.expire = 0)) ∧
      ¬(m.priority = Emergency ∧ m.retry < minRetryTime) ∧
      (m.priority = Emergency ∧ m.expire > maxExpireTime) ∧
      m.validateMessage pushContext =
        some ⟨ErrExpireTimeTooLong, "expire time is above maxExpireTime"⟩) ∨
    (¬m.message = "" ∧ ¬m.message.length > MaxMessageLen ∧ ¬m.title.length > MaxTitleLen ∧
      ¬m.url.length > MaxSuppURLLen ∧ ¬m.urlTitle.length > MaxSuppURLTitleLen ∧
      ¬(m.urlTitle ≠ "" ∧ m.url = "") ∧
      (m.priority = Lowest ∨ m.priority = Low ∨ m.priority = Normal ∨
        m.priority = High ∨ m.priority = Emergency) ∧
      ¬(m.priority = Emergency ∧ (m.retry = 0 ∨ m.expire = 0)) ∧
      ¬(m.priority = Emergency ∧ m.retry < minRetryTime) ∧
      ¬(m.priority = Emergency ∧ m.expire > maxExpireTime) ∧
      (m.device ≠ "" ∧ pushContext.IsValidDevice m.device = false) ∧
      m.validateMessage pushContext =
        some ⟨ErrNoDevice, "device is not among the supported devices"⟩) ∨
    (¬m.message = "" ∧ ¬m.message.length > MaxMessageLen ∧ ¬m.title.length > MaxTitleLen ∧
      ¬m.url.length > MaxSuppURLLen ∧ ¬m.urlTitle.length > MaxSuppURLTitleLen ∧
      ¬(m.urlTitle ≠ "" ∧ m.url = "") ∧
      (m.priority = Lowest ∨ m.priority = Low ∨ m.priority = Normal ∨
        m.priority = High ∨ m.priority = Emergency) ∧
      ¬(m.priority = Emergency ∧ (m.retry = 0 ∨ m.expire = 0)) ∧
      ¬(m.priority = Emergency ∧ m.retry < minRetryTime) ∧
      ¬(m.priority = Emergency ∧ m.expire > maxExpireTime) ∧
      ¬(m.device ≠ "" ∧ pushContext.IsValidDevice m.device = false) ∧
      m.validateMessage pushContext = none) := by
  by_cases h1 : m.message = ""
  · exact Or.inl ⟨h1, by simp [Message.validateMessage, h1]⟩
  by_cases h2 : m.message.length > MaxMessageLen
  · exact Or.inr (Or.inl ⟨h1, h2, by simp [Message.validateMessage, h1, h2]⟩)
  by_cases h3 : m.title.length > MaxTitleLen
  · exact Or.inr (Or.inr (Or.inl ⟨h1, h2, h3, by simp [Message.validateMessage, h1, h2, h3]⟩))
  by_cases h4 : m.url.length > MaxSuppURLLen
  · exact Or.inr (Or.inr (Or.inr (Or.inl ⟨h1, h2, h3, h4,
      by simp [Message.validateMessage, h1, h2, h3, h4]⟩)))
  by_cases h5 : m.urlTitle.length > MaxSuppURLTitleLen
  · exact Or.inr (Or.inr (Or.inr (Or.inr (Or.inl ⟨h1, h2, h3, h4, h5,
      by simp [Message.validateMessage, h1, h2, h3, h4, h5]⟩))))
  by_cases h6 : m.urlTitle ≠ "" ∧ m.url = ""
  · exact Or.inr (Or.inr (Or.inr (Or.inr (Or.inr (Or.inl ⟨h1, h2, h3, h4, h5, h6,
      by simp [Message.validateMessage, h1, h2, h3, h4, h5, h6.1, h6.2]⟩)))))
  by_cases h7 : m.priority = Lowest ∨ m.priority = Low ∨ m.priority = Normal ∨
      m.priority = High ∨ m.priority = Emergency
  swap
  · exact Or.inr (Or.inr (Or.inr (Or.inr (Or.inr (Or.inr (Or.inl
      ⟨h1, h2, h3, h4, h5, h6, h7,
        by simp [Message.validateMessage, h1, h2, h3, h4, h5, h6, h7]⟩))))))
  by_cases h8 : m.priority = Emergency ∧ (m.retry = 0 ∨ m.expire = 0)
  · exact Or.inr (Or.inr (Or.inr (Or.inr (Or.inr (Or.inr (Or.inr (Or.inl
      ⟨h1, h2, h3, h4, h5, h6, h7, h8,
        by simp [Message.validateMessage, h1, h2, h3, h4, h5, h6, h7, h8]⟩)))))))
  by_cases h9 : m.priority = Emergency ∧ m.retry < minRetryTime
  · exact Or.inr (Or.inr (Or.inr (Or.inr (Or.inr (Or.inr (Or.inr (Or.inr (Or.inl
      ⟨h1, h2, h3, h4, h5, h6, h7, h8, h9, by
        have hr0 : ¬m.retry = 0 := fun hc => h8 ⟨h9.1, Or.inl hc⟩
        have he0 : ¬m.expire = 0 := fun hc => h8 ⟨h9.1, Or.inr hc⟩
        simp [Message.validateMessage, h1, h2, h3, h4, h5, h6, h9.1, hr0, he0, h9.2]⟩))))))))
  by_cases h10 : m.priority = Emergency ∧ m.expire > maxExpireTime
  · exact Or.inr (Or.inr (Or.inr (Or.inr (Or.inr (Or.inr (Or.inr (Or.inr (Or.inr (Or.inl
      ⟨h1, h2, h3, h4, h5, h6, h7, h8, h9, h10, by
        have hr0 : ¬m.retry = 0 := fun hc => h8 ⟨h10.1, Or.inl hc⟩
        have he0 : ¬m.expire = 0 := fun hc => h8 ⟨h10.1, Or.inr hc⟩
        have hr9 : ¬m.retry < minRetryTime := fun hc => h9 ⟨h10.1, hc⟩
        simp [Message.validateMessage, h1, h2, h3, h4, h5, h6, h10.1, hr0, he0, hr9,
          h10.2]⟩)))))))))
  by_cases h11 : m.device ≠ "" ∧ pushContext.IsValidDevice m.device = false
  · exact Or.inr (Or.inr (Or.inr (Or.inr (Or.inr (Or.inr (Or.inr (Or.inr (Or.inr (Or.inr
      (Or.inl ⟨h1, h2, h3, h4, h5, h6, h7, h8, h9, h10, h11,
        by simp [Message.validateMessage, h1, h2, h3, h4, h5, h6, h7, h8, h9, h10, h11.1,
          h11.2]⟩))))))))))
  · exact Or.inr (Or.inr (Or.inr (Or.inr (Or.inr (Or.inr (Or.inr (Or.inr (Or.inr (Or.inr
      (Or.inr ⟨h1, h2, h3, h4, h5, h6, h7, h8, h9, h10, h11,
        by simp [Message.validateMessage, h1, h2, h3, h4, h5, h6, h7, h8, h9, h10, h11]⟩))))))))))


/-- Inversion: which discriminants force which guards. Only the second check can
report `ErrMessageTooLong`, only the ninth `ErrRetryTimeTooShort`, and only the
tenth `ErrExpireTimeTooLong`, so those discriminants imply their guards. -/
theorem validateMessage_inversion (m : Message) (pushContext : PushContext) :
    (whatOf (m.validateMessage pushContext) = ErrMessageTooLong →
      m.message.length > MaxMessageLen) ∧
    (whatOf (m.validateMessage pushContext) = ErrRetryTimeTooShort →
      m.priority = Emergency ∧ m.retry < minRetryTime) ∧
    (whatOf (m.validateMessage pushContext) = ErrExpireTimeTooLong →
      m.priority = Emergency ∧ m.expire > maxExpireTime) := by
  rcases validateMessage_char m pushContext with
    ⟨_, hout⟩ | ⟨_, hg2, hout⟩ | ⟨_, _, _, hout⟩ | ⟨_, _, _, _, hout⟩ |
    ⟨_, _, _, _, _, hout⟩ | ⟨_, _, _, _, _, _, hout⟩ | ⟨_, _, _, _, _, _, _, hout⟩ |
    ⟨_, _, _, _, _, _, _, _, hout⟩ | ⟨_, _, _, _, _, _, _, _, hg9, hout⟩ |
    ⟨_, _, _, _, _, _, _, _, _, hg10, hout⟩ | ⟨_, _, _, _, _, _, _, _, _, _, _, hout⟩ |
    ⟨_, _, _, _, _, _, _, _, _, _, _, hout⟩ <;>
    refine ⟨?_, ?_, ?_⟩ <;> intro hmap <;> rw [hout] at hmap <;>
    first
      | exact absurd hmap (by decide)
      | exact hg2
      | exact hg9
      | exact hg10

/-- Claim C4 (amended): validation evaluates the eleven implemented
constraints of section 4.2 in exactly the listed sequence and the first
failing check determines the reported discriminant; in particular a blank
body always reports `MessageBlank`, beating any later violation such as an
over-long title. The twelfth listed check (sound-catalogue membership) is an
optional extension that is not evaluated — see the counterexample. -/
theorem validateMessage_first_failing_of_eleven (pushContext : PushContext) (m : Message) :
    m.validateMessage pushContext =
      firstSome (specChecks.map (fun check => check m pushContext)) ∧
    (m.message = "" → whatOf (m.validateMessage pushContext) = ErrMessageBlank) := by
  constructor
  · rcases validateMessage_char m pushContext with
      ⟨h1, hout⟩ | ⟨h1, h2, hout⟩ | ⟨h1, h2, h3, hout⟩ | ⟨h1, h2, h3, h4, hout⟩ |
      ⟨h1, h2, h3, h4, h5, hout⟩ | ⟨h1, h2, h3, h4, h5, h6, hout⟩ |
      ⟨h1, h2, h3, h4, h5, h6, h7, hout⟩ | ⟨h1, h2, h3, h4, h5, h6, h7, h8, hout⟩ |
      ⟨h1, h2, h3, h4, h5, h6, h7, h8, h9, hout⟩ |
      ⟨h1, h2, h3, h4, h5, h6, h7, h8, h9, h10, hout⟩ |
      ⟨h1, h2, h3, h4, h5, h6, h7, h8, h9, h10, h11, hout⟩ |
      ⟨h1, h2, h3, h4, h5, h6, h7, h8, h9, h10, h11, hout⟩ <;> rw [hout]
    · simp [specChecks, firstSome, specCheck1, h1]
    · simp [specChecks, firstSome, specCheck1, specCheck2, h1, h2]
    · simp [specChecks, firstSome, specCheck1, specCheck2, specCheck3, h1, h2, h3]
    · simp [specChecks, firstSome, specCheck1, specCheck2, specCheck3, specCheck4,
        h1, h2, h3, h4]
    · simp [specChecks, firstSome, specCheck1, specCheck2, specCheck3, specCheck4,
        specCheck5, h1, h2, h3, h4, h5]
    · simp [specChecks, firstSome, specCheck1, specCheck2, specCheck3, specCheck4,
        specCheck5, specCheck6, h1, h2, h3, h4, h5, h6.1, h6.2]
    · simp [specChecks, firstSome, specCheck1, specCheck2, specCheck3, specCheck4,
        specCheck5, specCheck6, specCheck7, h1, h2, h3, h4, h5, h6, h7]
    · simp [specChecks, firstSome, specCheck1, specCheck2, specCheck3, specCheck4,
        specCheck5, specCheck6, specCheck7, specCheck8, h1, h2, h3, h4, h5, h6, h7, h8]
    · have hr0 : ¬m.retry = 0 := fun hc => h8 ⟨h9.1, Or.inl hc⟩
      have he0 : ¬m.expire = 0 := fun hc => h8 ⟨h9.1, Or.inr hc⟩
      simp [specChecks, firstSome, specCheck1, specCheck2, specCheck3, specCheck4,
        specCheck5, specCheck6, specCheck7, specCheck8, specCheck9, Lowest, Low, Normal,
        High, Emergency, h1, h2, h3, h4, h5, h6, h9.1, hr0, he0, h9.2]
    · have hr0 : ¬m.retry = 0 := fun hc => h8 ⟨h10.1, Or.inl hc⟩
      have he0 : ¬m.expire = 0 := fun hc => h8 ⟨h10.1, Or.inr hc⟩
      have hr9 : ¬m.retry < minRetryTime := fun hc => h9 ⟨h10.1, hc⟩
      simp [specChecks, firstSome, specCheck1, specCheck2, specCheck3, specCheck4,
        specCheck5, specCheck6, specCheck7, specCheck8, specCheck9, specCheck10, Lowest,
        Low, Normal, High, Emergency, h1, h2, h3, h4, h5, h6, h10.1, hr0, he0, hr9, h10.2]
    · simp [specChecks, firstSome, specCheck1, specCheck2, specCheck3, specCheck4,
        specCheck5, specCheck6, specCheck7, specCheck8, specCheck9, specCheck10,
        specCheck11, h1, h2, h3, h4, h5, h6, h7, h8, h9, h10, h11.1, h11.2]
    · simp [specChecks, firstSome, specCheck1, specCheck2, specCheck3, specCheck4,
        specCheck5, specCheck6, specCheck7, specCheck8, specCheck9, specCheck10,
        specCheck11, h1, h2, h3, h4, h5, h6, h7, h8, h9, h10, h11]
  · intro h
    simp [Message.validateMessage, whatOf, h]


/-- Claim C1: `Push` hands the message to the transport (one call against the
send-message endpoint) only if it passed every applicable constraint of
section 4.2; whenever a constraint fails, `Push` returns the validation error
and the transport-call trace is empty. -/
theorem Push_transports_only_validated_messages (transport : Transport)
    (pushContext : PushContext) (m : Message) :
    (m.validateMessage pushContext = none ∧
      (pushContext.Push transport m).2 =
        [(pushURL, m.addValues (pushContext.addValues []))]) ∨
    ((m.validateMessage pushContext).isSome = true ∧
      (pushContext.Push transport m).1 =
        (zeroResponse, (m.validateMessage pushContext).map Err.valueError) ∧
      (pushContext.Push transport m).2 = []) := by
  cases h : m.validateMessage pushContext with
  | none => exact Or.inl ⟨rfl, by simp [PushContext.Push, h]⟩
  | some e => exact Or.inr (by simp [PushContext.Push, h])

/-- Claim C2: for every message whose body text is the empty string, `Push`
fails with the `MessageBlank` discriminant and performs no transport call. -/
theorem Push_blank_message_fails_before_network (transport : Transport)
    (pushContext : PushContext) (m : Message) (h : m.message = "") :
    (pushContext.Push transport m).1 =
      (zeroResponse, some (Err.valueError ⟨ErrMessageBlank, "message body is blank"⟩)) ∧
    (pushContext.Push transport m).2 = [] := by
  have hv : m.validateMessage pushContext =
      some ⟨ErrMessageBlank, "message body is blank"⟩ := by
    simp [Message.validateMessage, h]
  simp [PushContext.Push, hv]

/-- Witness for claim C2 at the concrete blank message. -/
theorem Push_blank_message_fails_before_network_witness :
    (wCtx.Push wTransport wBlank).1 =
      (zeroResponse, some (Err.valueError ⟨ErrMessageBlank, "message body is blank"⟩)) ∧
    (wCtx.Push wTransport wBlank).2 = [] :=
  Push_blank_message_fails_before_network wTransport wCtx wBlank rfl

/-- Claim C3: a body text longer than 1024 characters fails validation with
`MessageTooLong`; a body of exactly 1024 characters never yields
`MessageTooLong` (the length check passes and validation proceeds). -/
theorem validateMessage_body_length_boundary (pushContext : PushContext) (m : Message) :
    (MaxMessageLen < m.message.length →
      whatOf (m.validateMessage pushContext) = ErrMessageTooLong) ∧
    (m.message.length = MaxMessageLen →
      whatOf (m.validateMessage pushContext) ≠ ErrMessageTooLong) := by
  constructor
  · intro hlen
    have hne : ¬m.message = "" := by
      intro h0
      rw [h0] at hlen
      simp [MaxMessageLen] at hlen
    simp [Message.validateMessage, whatOf, hne, hlen]
  · intro hlen hmap
    have := (validateMessage_inversion m pushContext).1 hmap
    omega

set_option maxRecDepth 10000 in
/-- Witness for claim C3 at bodies of 1025 and exactly 1024 characters. -/
theorem validateMessage_body_length_boundary_witness :
    whatOf (wLong.validateMessage wCtx) = ErrMessageTooLong ∧
    whatOf (wExact.validateMessage wCtx) ≠ ErrMessageTooLong :=
  ⟨(validateMessage_body_length_boundary wCtx wLong).1 (by decide),
   (validateMessage_body_length_boundary wCtx wExact).2 (by decide)⟩

/-- Witness for claim C4 at a message with blank body and an over-long
(251-character) title: the discriminant is `MessageBlank`, not `TitleTooLong`. -/
theorem validateMessage_first_failing_of_eleven_witness :
    whatOf (cxBlankLongTitle.validateMessage wCtx) = ErrMessageBlank :=
  (validateMessage_first_failing_of_eleven wCtx cxBlankLongTitle).2 rfl

/-- Counterexample to claim C4 as stated: the twelfth listed constraint is
not evaluated — a message whose sound is set and absent from the context's
catalogue passes validation and is handed to the transport. -/
theorem validateMessage_sound_check_not_evaluated :
    cxSoundMsg.sound ≠ "" ∧
    cxSoundCtx.IsValidSound cxSoundMsg.sound = false ∧
    cxSoundMsg.validateMessage cxSoundCtx = none ∧
    (cxSoundCtx.Push wTransport cxSoundMsg).2 ≠ [] := by
  refine ⟨by decide, by decide, by decide, by decide⟩

/-- Counterexample to claim C5 as stated: with URL title set and URL empty
the failure is not `MissingParameter` regardless of all other fields — a
blank body yields `MessageBlank` instead, because the earlier check wins. -/
theorem urlTitle_without_url_blank_body_counterexample :
    cxBlankURLTitle.urlTitle ≠ "" ∧ cxBlankURLTitle.url = "" ∧
    whatOf (cxBlankURLTitle.validateMessage wCtx) = ErrMessageBlank ∧
    ErrMessageBlank ≠ ErrMissingParameter ∧
    (wCtx.Push wTransport cxBlankURLTitle).1.2 =
      some (Err.valueError ⟨ErrMessageBlank, "message body is blank"⟩) := by
  refine ⟨by decide, by decide, by decide, by decide, by decide⟩

/-- Claim C5 (amended): a message with auxiliary URL title set and auxiliary
URL empty fails `Push` with `MissingParameter`, provided no earlier check of
section 4.2 fails (body non-empty and within bounds, title and URL title
within bounds); all fields examined by later checks (priority, retry, expire,
timestamp, sound, device) are arbitrary, and no transport call is made. -/
theorem Push_urlTitle_without_url_missing_parameter (transport : Transport)
    (pushContext : PushContext) (m : Message)
    (hut : m.urlTitle ≠ "") (hu : m.url = "") (hm : m.message ≠ "")
    (hml : ¬m.message.length > MaxMessageLen) (htl : ¬m.title.length > MaxTitleLen)
    (hutl : ¬m.urlTitle.length > MaxSuppURLTitleLen) :
    (pushContext.Push transport m).1 =
      (zeroResponse,
        some (Err.valueError ⟨ErrMissingParameter, "url title given but url is empty"⟩)) ∧
    (pushContext.Push transport m).2 = [] := by
  have hul : ¬m.url.length > MaxSuppURLLen := by rw [hu]; decide
  have hv : m.validateMessage pushContext =
      some ⟨ErrMissingParameter, "url title given but url is empty"⟩ := by
    simp [Message.validateMessage, hm, hml, htl, hul, hutl, hut, hu]
  simp [PushContext.Push, hv]

/-- Witness for claim C5 at a concrete message with URL title but no URL. -/
theorem Push_urlTitle_without_url_missing_parameter_witness :
    (wCtx.Push wTransport wURLTitle).1 =
      (zeroResponse,
        some (Err.valueError ⟨ErrMissingParameter, "url title given but url is empty"⟩)) ∧
    (wCtx.Push wTransport wURLTitle).2 = [] :=
  Push_urlTitle_without_url_missing_parameter wTransport wCtx wURLTitle (by decide)
    (by decide) (by decide) (by decide) (by decide) (by decide)

/-- Counterexample to claim C6 as stated: an Emergency-priority message with
retry 29 and expire set but a blank body fails with `MessageBlank`, not
`RetryTimeTooShort` — an earlier violated check takes precedence. -/
theorem emergency_blank_body_counterexample :
    cxBlankEmergency.priority = Emergency ∧ cxBlankEmergency.retry = 29 ∧
    cxBlankEmergency.expire ≠ 0 ∧
    whatOf (cxBlankEmergency.validateMessage wCtx) = ErrMessageBlank ∧
    ErrMessageBlank ≠ ErrRetryTimeTooShort := by
  refine ⟨by decide, by decide, by decide, by decide, by decide⟩

/-- Claim C6 (amended): for an Emergency-priority message with retry and
expire both set that passes the earlier checks: retry 29 fails
`RetryTimeTooShort` while retry 30 passes that check; with retry at least 30,
expire 86401 fails `ExpireTimeTooLong`, while expire 86400 never does. -/
theorem validateMessage_emergency_boundaries (pushContext : PushContext) (m : Message)
    (hp : m.priority = Emergency) (hr : ¬m.retry = 0) (he : ¬m.expire = 0)
    (hm : m.message ≠ "") (hml : ¬m.message.length > MaxMessageLen)
    (htl : ¬m.title.length > MaxTitleLen) (hul : ¬m.url.length > MaxSuppURLLen)
    (hutl : ¬m.urlTitle.length > MaxSuppURLTitleLen)
    (hu6 : ¬(m.urlTitle ≠ "" ∧ m.url = "")) :
    (m.retry = 29 → whatOf (m.validateMessage pushContext) = ErrRetryTimeTooShort) ∧
    (m.retry = 30 → whatOf (m.validateMessage pushContext) ≠ ErrRetryTimeTooShort) ∧
    (minRetryTime ≤ m.retry → m.expire = 86401 →
      whatOf (m.validateMessage pushContext) = ErrExpireTimeTooLong) ∧
    (m.expire = 86400 → whatOf (m.validateMessage pushContext) ≠ ErrExpireTimeTooLong) := by
  refine ⟨?_, ?_, ?_, ?_⟩
  · intro h29
    simp [Message.validateMessage, whatOf, hm, hml, htl, hul, hutl, hu6, hp, hr, he, h29,
      Lowest, Low, Normal, High, Emergency, minRetryTime]
  · intro h30 hmap
    have := (validateMessage_inversion m pushContext).2.1 hmap
    have hlt := this.2
    rw [h30] at hlt
    simp [minRetryTime] at hlt
  · intro hge h86401
    have h9n : ¬m.retry < minRetryTime := not_lt.mpr hge
    simp [Message.validateMessage, whatOf, hm, hml, htl, hul, hutl, hu6, hp, hr, he, h9n,
      h86401, Lowest, Low, Normal, High, Emergency, maxExpireTime]
  · intro h86400 hmap
    have := (validateMessage_inversion m pushContext).2.2 hmap
    have hgt := this.2
    rw [h86400] at hgt
    simp [maxExpireTime] at hgt

/-- Witness for claim C6 at Emergency messages with retry 29 / expire 86400
and retry 30 / expire 86401. -/
theorem validateMessage_emergency_boundaries_witness :
    whatOf (wEmA.validateMessage wCtx) = ErrRetryTimeTooShort ∧
    whatOf (wEmB.validateMessage wCtx) ≠ ErrRetryTimeTooShort ∧
    whatOf (wEmB.validateMessage wCtx) = ErrExpireTimeTooLong ∧
    whatOf (wEmA.validateMessage wCtx) ≠ ErrExpireTimeTooLong :=
  ⟨(validateMessage_emergency_boundaries wCtx wEmA (by decide) (by decide) (by decide)
      (by decide) (by decide) (by decide) (by decide) (by decide) (by decide)).1 (by decide),
   (validateMessage_emergency_boundaries wCtx wEmB (by decide) (by decide) (by decide)
      (by decide) (by decide) (by decide) (by decide) (by decide) (by decide)).2.1
      (by decide),
   (validateMessage_emergency_boundaries wCtx wEmB (by decide) (by decide) (by decide)
      (by decide) (by decide) (by decide) (by decide) (by decide) (by decide)).2.2.1
      (by decide) (by decide),
   (validateMessage_emergency_boundaries wCtx wEmA (by decide) (by decide) (by decide)
      (by decide) (by decide) (by decide) (by decide) (by decide) (by decide)).2.2.2
      (by decide)⟩

/-- Claim C8: `push` interprets the decoded response: a status other than 1
yields the zero response paired with a `PushError` wrapping the full decoded
response (hence the echoed request identifier and the service's error list);
status 1 returns the decoded response, receipt included, with no error. -/
theorem push_status_interpretation (pushContext : PushContext) (transport : Transport)
    (theURL : String) (values : List (String × String)) :
    (pushContext.push transport theURL values =
        (zeroResponse, some (Err.pushError (transport theURL values))) ↔
      (transport theURL values).Status ≠ 1) ∧
    (pushContext.push transport theURL values = (transport theURL values, none) ↔
      (transport theURL values).Status = 1) := by
  unfold PushContext.push
  by_cases hs : (transport theURL values).Status = 1 <;> simp [hs]

/-- Claim C9: `NewPushContext` returns no context exactly when a discovery
step fails (credential validation status other than 1, or sound-catalogue
fetch failure), and it returns no error exactly when it returns a context:
construction either fails totally or yields a usable context. -/
theorem NewPushContext_fail_fast (transport : Transport) (soundsFetched : FetchResult)
    (appToken userKey : String) :
    ((NewPushContext transport soundsFetched appToken userKey).1 = none ↔
      ((transport validateURL [("token", appToken), ("user", userKey)]).Status ≠ 1 ∨
        soundsFetched = FetchResult.fail)) ∧
    ((NewPushContext transport soundsFetched appToken userKey).2 = none ↔
      ¬(NewPushContext transport soundsFetched appToken userKey).1 = none) := by
  by_cases hs : (transport validateURL [("token", appToken), ("user", userKey)]).Status = 1 <;>
    cases soundsFetched <;>
    simp [NewPushContext, PushContext.validatePushContext, PushContext.push,
      PushContext.addValues, PushContext.availableSounds, PushContext.get, hs]

/-- Claim C10: whenever `Push` returns an error — local validation failure or
non-1 remote status — the accompanying `Response` is the zero response; the
decoded remote payload is returned only on success. -/
theorem Push_zero_response_with_error (transport : Transport)
    (pushContext : PushContext) (m : Message) :
    (pushContext.Push transport m).1.2 = none ∨
    (pushContext.Push transport m).1.1 = zeroResponse := by
  rcases hv : m.validateMessage pushContext with _ | e
  · by_cases hs : (transport pushURL (m.addValues (pushContext.addValues []))).Status = 1
    · exact Or.inl (by simp [PushContext.Push, PushContext.push, hv, hs])
    · exact Or.inr (by simp [PushContext.Push, PushContext.push, hv, hs])
  · exact Or.inr (by simp [PushContext.Push, hv])


/-- Key membership distributes over appended parameter lists. -/
theorem hasKey_append (a b : List (String × String)) (key : String) :
    hasKey (a ++ b) key = (hasKey a key || hasKey b key) := by
  simp [hasKey, List.any_append]

/-- Key membership commutes with a conditional parameter block. -/
theorem hasKey_ite (c : Prop) [Decidable c] (a b : List (String × String)) (key : String) :
    hasKey (if c then a else b) key = if c then hasKey a key else hasKey b key :=
  apply_ite (fun l => hasKey l key) c a b

/-- Claim C7: for every message that passes validation, the assembled
transport parameters always carry the priority key (and the message key),
carry retry and expire exactly when the priority is Emergency, carry
timestamp exactly when the timestamp is non-zero, and carry each optional
field's key (title, url, url_title, sound, device) exactly when that field is
not at its zero value. -/
theorem Push_parameter_assembly (pushContext : PushContext) (m : Message)
    (h : m.validateMessage pushContext = none) :
    hasKey (m.addValues (pushContext.addValues [])) "message" = true ∧
    hasKey (m.addValues (pushContext.addValues [])) "priority" = true ∧
    (hasKey (m.addValues (pushContext.addValues [])) "retry" = true ↔
      m.priority = Emergency) ∧
    (hasKey (m.addValues (pushContext.addValues [])) "expire" = true ↔
      m.priority = Emergency) ∧
    (hasKey (m.addValues (pushContext.addValues [])) "timestamp" = true ↔
      ¬m.timestamp = 0) ∧
    (hasKey (m.addValues (pushContext.addValues [])) "title" = true ↔ ¬m.title = "") ∧
    (hasKey (m.addValues (pushContext.addValues [])) "url" = true ↔ ¬m.url = "") ∧
    (hasKey (m.addValues (pushContext.addValues [])) "url_title" = true ↔
      ¬m.urlTitle = "") ∧
    (hasKey (m.addValues (pushContext.addValues [])) "sound" = true ↔ ¬m.sound = "") ∧
    (hasKey (m.addValues (pushContext.addValues [])) "device" = true ↔
      ¬m.device = "") := by
  have hm : ¬m.message = "" := by
    intro h0
    simp [Message.validateMessage, h0] at h
  refine ⟨?_, ?_, ?_, ?_, ?_, ?_, ?_, ?_, ?_, ?_⟩ <;>
    simp [Message.addValues, PushContext.addValues, hasKey_append, hasKey_ite, hasKey, hm]

/-- Witness for claim C7 at a message with title, URL and timestamp set. -/
theorem Push_parameter_assembly_witness :
    hasKey (wPlain.addValues (wCtx.addValues [])) "message" = true ∧
    hasKey (wPlain.addValues (wCtx.addValues [])) "priority" = true ∧
    (hasKey (wPlain.addValues (wCtx.addValues [])) "retry" = true ↔
      wPlain.priority = Emergency) ∧
    (hasKey (wPlain.addValues (wCtx.addValues [])) "expire" = true ↔
      wPlain.priority = Emergency) ∧
    (hasKey (wPlain.addValues (wCtx.addValues [])) "timestamp" = true ↔
      ¬wPlain.timestamp = 0) ∧
    (hasKey (wPlain.addValues (wCtx.addValues [])) "title" = true ↔ ¬wPlain.title = "") ∧
    (hasKey (wPlain.addValues (wCtx.addValues [])) "url" = true ↔ ¬wPlain.url = "") ∧
    (hasKey (wPlain.addValues (wCtx.addValues [])) "url_title" = true ↔
      ¬wPlain.urlTitle = "") ∧
    (hasKey (wPlain.addValues (wCtx.addValues [])) "sound" = true ↔ ¬wPlain.sound = "") ∧
    (hasKey (wPlain.addValues (wCtx.addValues [])) "device" = true ↔
      ¬wPlain.device = "") :=
  Push_parameter_assembly wCtx wPlain (by decide)

end Breeze
